import Mathlib

/-!
Verification development for the DreamPi Link Cable Pi-service installer
(`pi_installer.py`).  The installer is a GUI application whose core is the
`DreamPiInstaller` class: an install workflow of five ordered steps
(connect, download, install, verify, shortcuts), an uninstall workflow,
a remote executor built on an `ssh` subprocess, a connectivity probe and
settings persistence.  Below, the effectful collaborators (sockets, HTTP,
subprocesses, the filesystem, message boxes) are replaced by explicit
oracle values, and the methods of the class become pure functions on an
explicit `GuiState`; every external call additionally contributes an
`Event` to a trace so that claims of the form "X is never invoked" or
"the timeout passed is t" are statable.
-/

/-- Configuration constant `GITHUB_REPO_URL` from the source. -/
def GITHUB_REPO_URL : String :=
  "https://raw.githubusercontent.com/eaudunord/taisen-web-ui/main/install.sh"

/-- Configuration constant `DEFAULT_HOSTNAME`. -/
def DEFAULT_HOSTNAME : String := "dreampi.local"

/-- Configuration constant `DEFAULT_USERNAME`. -/
def DEFAULT_USERNAME : String := "pi"

/-- Configuration constant `DEFAULT_PASSWORD`. -/
def DEFAULT_PASSWORD : String := "raspberry"

/-- Configuration constant `DEFAULT_PORT`. -/
def DEFAULT_PORT : Nat := 22

/-- Configuration constant `PORTAL_PORT`: the fixed web-interface port. -/
def PORTAL_PORT : Nat := 1999

/-- Python's `str.strip()` as used throughout the source on the Tk
variable values and on captured output: drop whitespace from both ends. -/
def strip (s : String) : String :=
  ⟨((s.data.dropWhile Char.isWhitespace).reverse.dropWhile
      Char.isWhitespace).reverse⟩

/-- Colour `self.success_color` set in `setup_style`. -/
def success_color : String := "#28a745"

/-- Colour `self.warning_color` set in `setup_style`. -/
def warning_color : String := "#ffc107"

/-- Colour `self.error_color` set in `setup_style`. -/
def error_color : String := "#dc3545"

/-- One observable external call made by the installer: a hostname
resolution (`socket.gethostbyname`), a TCP connect probe
(`socket.connect_ex` after `settimeout`), a sleep (`time.sleep`), an
HTTP fetch (`urlopen` with a timeout) or the launch of an `ssh`
subprocess (`subprocess.Popen` inside `execute_ssh_command`). -/
inductive Event
  | resolveCall (host : String)
  | probeCall (host : String) (port : Nat) (timeoutSecs : Nat)
  | sleepCall (secs : Nat)
  | httpGet (url : String) (timeoutSecs : Nat)
  | sshCall (argv : List String) (timeoutSecs : Nat)
  deriving DecidableEq

/-- State of a `DreamPiInstaller` instance: the Tk variables
(`hostname_var`, `username_var`, `password_var`, `port_var`, the two
shortcut check boxes), the `is_installing` busy flag, the five step
labels of the progress panel as (text, colour) pairs, the downloaded
script buffer `install_script_content`, the output log and the modal
notices (message boxes / dialogs) shown to the user. -/
structure GuiState where
  hostname : String
  username : String
  password : String
  port : Nat
  create_desktop_shortcut : Bool
  create_start_menu : Bool
  is_installing : Bool
  steps : List (String × String)
  install_script_content : String
  log : List String
  notices : List String
  deriving DecidableEq

/-- Append one line to the installer log (`self.log`). -/
def logLine (st : GuiState) (s : String) : GuiState :=
  { st with log := st.log ++ [s] }

/-- Show one modal notice to the user (a `messagebox` call or the
failure `Toplevel` dialog). -/
def notify (st : GuiState) (s : String) : GuiState :=
  { st with notices := st.notices ++ [s] }

/-- `update_step_status(step, status, color)`: set the text and colour
of one step label (out-of-range indices are ignored, as in the
source's bounds check). -/
def update_step_status (st : GuiState) (step : Nat) (text color : String) :
    GuiState :=
  { st with steps := st.steps.set step (text, color) }

/-- The step labels as reset at the start of a run: all five read
"Pending" in the warning colour. -/
def resetSteps : List (String × String) :=
  [("Pending", warning_color), ("Pending", warning_color),
   ("Pending", warning_color), ("Pending", warning_color),
   ("Pending", warning_color)]

/-- Text of the `i`-th step label. -/
def stepText (st : GuiState) (i : Nat) : String :=
  (st.steps.getD i ("", "")).1

/-- Colour of the `i`-th step label. -/
def stepColor (st : GuiState) (i : Nat) : String :=
  (st.steps.getD i ("", "")).2

/-- Outcome of the `ssh` subprocess launched by `execute_ssh_command`:
it runs to completion with a return code and captured streams, it
exceeds the timeout (so `communicate` raises `TimeoutExpired`, the
process is killed and drained), or `Popen` itself raises (binary
missing, argument error). -/
inductive SSHOutcome
  | completed (returncode : Int) (stdout stderr : String)
  | timedOut (stdout : String)
  | popenError (msg : String)
  deriving DecidableEq

/-- Environment of one `execute_ssh_command` call: whether `sshpass`
is on the PATH (`shutil.which`), and what the subprocess does. -/
structure SSHWorld where
  sshpass_available : Bool
  outcome : SSHOutcome
  deriving DecidableEq

/-- The `ssh_cmd` argument vector built in `execute_ssh_command`. -/
def ssh_cmd (st : GuiState) (command : String) (timeout : Nat) :
    List String :=
  ["ssh",
   "-o", "StrictHostKeyChecking=no",
   "-o", "UserKnownHostsFile=/dev/null",
   "-o", "PreferredAuthentications=password",
   "-o", "PubkeyAuthentication=no",
   "-o", "ConnectTimeout=" ++ toString (min timeout 30),
   "-p", toString st.port,
   strip st.username ++ "@" ++ strip st.hostname,
   command]

/-- The `full_cmd` actually launched: `sshpass -p <password>` is
prepended when `sshpass` is available, otherwise `ssh_cmd` runs
directly (with `SSH_ASKPASS` trickery in the environment). -/
def full_cmd (st : GuiState) (command : String) (timeout : Nat)
    (sshpass : Bool) : List String :=
  if sshpass then ["sshpass", "-p", st.password] ++ ssh_cmd st command timeout
  else ssh_cmd st command timeout

/-- `execute_ssh_command(command, timeout)`: launches the subprocess and
returns `(returncode, stdout, stderr)`.  On `TimeoutExpired` the process
is killed and the result is `(-1, stdout, "SSH command timed out after
<timeout> seconds")`; if `Popen` raises, the result is `(-1, "",
str(e))`.  The function never raises; its trace records the one
subprocess launch. -/
def execute_ssh_command (st : GuiState) (command : String) (timeout : Nat)
    (w : SSHWorld) : (Int × String × String) × List Event :=
  let argv := full_cmd st command timeout w.sshpass_available
  let result : Int × String × String :=
    match w.outcome with
    | .completed rc out err => (rc, out, err)
    | .timedOut out =>
        (-1, out, "SSH command timed out after " ++ toString timeout ++
                  " seconds")
    | .popenError msg => (-1, "", msg)
  (result, [Event.sshCall argv timeout])

/-- The embedded installation shell template `install_script` built in
`install_pi_service` (passed verbatim as the remote command). -/
def install_script : String :=
  String.intercalate "\n"
    ["#!/bin/bash",
     "set -e",
     "",
     "echo \"=== DreamPi Link Cable Installation ===\"",
     "echo \"Timestamp: $(date)\"",
     "echo \"User: $(whoami) (UID: $(id -u))\"",
     "echo \"Directory: $(pwd)\"",
     "echo \"\"",
     "",
     "# Prevent running as root",
     "if [ \"$(id -u)\" = \"0\" ]; then",
     "    echo \"ERROR: This installer must NOT be run as root/sudo\"",
     "    echo \"Please run as regular user: ./install.sh\"",
     "    exit 1",
     "fi",
     "",
     "echo \"Downloading installation script...\"",
     "curl -sSL https://raw.githubusercontent.com/eaudunord/taisen-web-ui/main/install.sh -o /tmp/dreampi_install.sh",
     "",
     "if [ ! -f \"/tmp/dreampi_install.sh\" ]; then",
     "    echo \"ERROR: Failed to download installation script\"",
     "    exit 1",
     "fi",
     "",
     "echo \"Making script executable...\"",
     "chmod +x /tmp/dreampi_install.sh",
     "",
     "echo \"Running installation script...\"",
     "/tmp/dreampi_install.sh",
     "",
     "echo \"\"",
     "echo \"=== Post-Installation Checks ===\"",
     "",
     "# Check installation directory",
     "if [ -d \"/opt/dreampi-linkcable\" ]; then",
     "    echo \"✓ Installation directory exists\"",
     "    echo \"Files installed:\"",
     "    ls -la /opt/dreampi-linkcable/ 2>/dev/null || echo \"  Cannot list directory contents\"",
     "else",
     "    echo \"✗ Installation directory not found\"",
     "fi",
     "",
     "# Check service status",
     "echo \"\"",
     "echo \"Checking service status...\"",
     "if systemctl --user is-active --quiet dreampi-linkcable 2>/dev/null; then",
     "    echo \"✓ User service is active\"",
     "    systemctl --user status dreampi-linkcable --no-pager -l 2>/dev/null || true",
     "elif sudo systemctl is-active --quiet dreampi-linkcable 2>/dev/null; then",
     "    echo \"✓ System service is active\"",
     "    sudo systemctl status dreampi-linkcable --no-pager -l 2>/dev/null || true",
     "else",
     "    echo \"? Service status unclear - checking both user and system:\"",
     "    echo \"User service:\"",
     "    systemctl --user status dreampi-linkcable --no-pager -l 2>/dev/null || echo \"  Not found\"",
     "    echo \"System service:\"",
     "    sudo systemctl status dreampi-linkcable --no-pager -l 2>/dev/null || echo \"  Not found or no sudo access\"",
     "fi",
     "",
     "# Test web server",
     "echo \"\"",
     "echo \"Testing web server...\"",
     "if curl -s -m 10 http://localhost:1999 >/dev/null 2>&1; then",
     "    echo \"✓ Web server responding on port 1999\"",
     "else",
     "    echo \"✗ Web server not responding on port 1999\"",
     "    echo \"  This may be normal if the service is still starting\"",
     "fi",
     "",
     "# Clean up",
     "rm -f /tmp/dreampi_install.sh",
     "",
     "echo \"\"",
     "echo \"=== Installation Complete ===\"",
     "echo \"Timestamp: $(date)\"",
     ""]

/-- The best-effort service status query sent during verification. -/
def verify_status_command : String :=
  "systemctl --user is-active dreampi-linkcable 2>/dev/null || sudo systemctl is-active dreampi-linkcable 2>/dev/null || echo \x27Service status unknown\x27"

/-- Result of one workflow step method: the updated installer state, the
boolean the method returns, and the trace of external calls it made. -/
structure StepResult where
  st : GuiState
  ok : Bool
  tr : List Event
  deriving DecidableEq

/-- `connect_to_pi` (install step 1): probe `hostname:port` with a
10-second socket timeout.  `connect_ex` returning non-zero raises
locally; any exception (including a resolution failure inside
`connect_ex`) is caught, the step is marked Failed and `False` is
returned.  The probe oracle is `Except.ok r` for a `connect_ex` result
`r` and `Except.error e` for a raised exception. -/
def connect_to_pi (st : GuiState) (probe : Except String Int) : StepResult :=
  let st := logLine st "Step 1: Connecting to Raspberry Pi..."
  let st := update_step_status st 0 "Connecting..." warning_color
  let hostname := strip st.hostname
  let port := st.port
  let tr := [Event.probeCall hostname port 10]
  match probe with
  | .ok r =>
      if r = 0 then
        let st := logLine st
          ("Successfully connected to " ++ hostname ++ ":" ++ toString port)
        ⟨update_step_status st 0 "Complete" success_color, true, tr⟩
      else
        let st := logLine st
          ("ERROR: Connection failed - Cannot connect to " ++ hostname ++ ":"
            ++ toString port)
        ⟨update_step_status st 0 "Failed" error_color, false, tr⟩
  | .error e =>
      let st := logLine st ("ERROR: Connection failed - " ++ e)
      ⟨update_step_status st 0 "Failed" error_color, false, tr⟩

/-- `download_install_script` (install step 2): HTTP GET of
`GITHUB_REPO_URL` with a 30-second timeout.  The oracle is the body on
success or the exception message on failure; an empty (all-whitespace)
body raises "Downloaded script is empty" and is caught by the same
handler. -/
def download_install_script (st : GuiState) (dl : Except String String) :
    StepResult :=
  let st := logLine st "Step 2: Downloading installation script..."
  let st := update_step_status st 1 "Downloading..." warning_color
  let st := logLine st ("Downloading from: " ++ GITHUB_REPO_URL)
  let tr := [Event.httpGet GITHUB_REPO_URL 30]
  match dl with
  | .ok content =>
      if strip content = "" then
        let st := logLine st "ERROR: Download failed - Downloaded script is empty"
        ⟨update_step_status st 1 "Failed" error_color, false, tr⟩
      else
        let st := { st with install_script_content := content }
        let st := logLine st
          ("Successfully downloaded script (" ++ toString content.length
            ++ " bytes)")
        ⟨update_step_status st 1 "Complete" success_color, true, tr⟩
  | .error e =>
      let st := logLine st ("ERROR: Download failed - " ++ e)
      ⟨update_step_status st 1 "Failed" error_color, false, tr⟩

/-- Forward the captured output of the remote install run to the log:
`stdout` lines prefixed "Pi: " and `stderr` lines prefixed
"SSH Error: ", skipping blank lines, each block only when the stream is
non-empty (the source's `if stdout:` / `if stderr:`). -/
def logStream (st : GuiState) (prefixTag : String) (stream : String) :
    GuiState :=
  if stream = "" then st
  else
    { st with
      log := st.log ++
        ((stream.splitOn "\n").filter (fun l => strip l ≠ "")).map
          (fun l => prefixTag ++ l) }

/-- `install_pi_service` (install step 3): send the embedded
`install_script` through `execute_ssh_command` with a 300-second
timeout, forward its output to the log, and succeed exactly when the
return code is 0. -/
def install_pi_service (st : GuiState) (w : SSHWorld) : StepResult :=
  let st := logLine st "Step 3: Installing DreamPi Link Cable service..."
  let st := update_step_status st 2 "Installing..." warning_color
  let st := logLine st "Executing installation script on Pi..."
  let st := logLine st "This may take a few minutes..."
  let (res, tr) := execute_ssh_command st install_script 300 w
  let (return_code, stdout, stderr) := res
  let st := logStream st "Pi: " stdout
  let st := logStream st "SSH Error: " stderr
  if return_code = 0 then
    let st := logLine st "Installation completed successfully"
    ⟨update_step_status st 2 "Complete" success_color, true, tr⟩
  else
    let st := logLine st
      ("Installation failed with exit code " ++ toString return_code)
    ⟨update_step_status st 2 "Failed" error_color, false, tr⟩

/-- `verify_installation` (install step 4): sleep 5 seconds, probe
`hostname:PORTAL_PORT` with a 15-second socket timeout.  A successful
probe marks the step Complete; a failed probe triggers a best-effort
status query over SSH (30-second timeout) and still marks the step
Complete in the warning colour; an exception is caught and likewise
marks the step Complete in the warning colour.  The method returns
`True` on every path. -/
def verify_installation (st : GuiState) (probe : Except String Int)
    (sshw : SSHWorld) : StepResult :=
  let st := logLine st "Step 4: Verifying DreamPi Link Cable installation..."
  let st := update_step_status st 3 "Verifying..." warning_color
  let hostname := strip st.hostname
  let st := logLine st
    ("Testing DreamPi Link Cable web server at " ++ hostname ++ ":"
      ++ toString PORTAL_PORT ++ "...")
  let tr := [Event.sleepCall 5, Event.probeCall hostname PORTAL_PORT 15]
  match probe with
  | .ok r =>
      if r = 0 then
        let st := logLine st
          ("SUCCESS: DreamPi Link Cable web server is accessible at "
            ++ hostname ++ ":" ++ toString PORTAL_PORT)
        ⟨update_step_status st 3 "Complete" success_color, true, tr⟩
      else
        let st := logLine st
          ("WARNING: Web server not yet accessible at " ++ hostname ++ ":"
            ++ toString PORTAL_PORT)
        let st := logLine st "Checking service status on Pi..."
        let (res, tr2) := execute_ssh_command st verify_status_command 30 sshw
        let (_, stdout, _) := res
        let st :=
          if stdout = "" then st
          else logLine st ("Service status: " ++ strip stdout)
        let st := logLine st
          "Installation may still be successful - service might be starting"
        ⟨update_step_status st 3 "Complete" warning_color, true, tr ++ tr2⟩
  | .error e =>
      let st := logLine st ("WARNING: Verification test failed - " ++ e)
      let st := logLine st
        "Installation may still be successful - check manually"
      ⟨update_step_status st 3 "Complete" warning_color, true, tr⟩

/-- What happens inside `create_windows_shortcuts`: the two helper
methods `create_desktop_shortcut_file` and `create_start_menu_shortcut`
each return a boolean (they catch their own exceptions), or the step
body raises before/around them and the outer handler fires. -/
inductive ShortcutsOutcome
  | normal (desktopOk startMenuOk : Bool)
  | raised (msg : String)
  deriving DecidableEq

/-- `create_windows_shortcuts` (install step 5): attempt each shortcut
selected by the check boxes, count the successes, and mark the step
Complete exactly when at least one shortcut was created (so zero
selected options also yields Failed / `False`).  An exception in the
body marks the step Failed and returns `False`. -/
def create_windows_shortcuts (st : GuiState) (o : ShortcutsOutcome) :
    StepResult :=
  let st := logLine st "Step 5: Creating Windows shortcuts..."
  let st := update_step_status st 4 "Creating..." warning_color
  match o with
  | .raised msg =>
      let st := logLine st ("ERROR: Shortcut creation failed - " ++ msg)
      ⟨update_step_status st 4 "Failed" error_color, false, []⟩
  | .normal desktopOk startMenuOk =>
      let (st, n1) :=
        if st.create_desktop_shortcut then
          if desktopOk then
            (logLine st "Desktop shortcut created successfully", 1)
          else (logLine st "Failed to create desktop shortcut", 0)
        else (st, 0)
      let (st, n2) :=
        if st.create_start_menu then
          if startMenuOk then
            (logLine st "Start Menu entry created successfully", 1)
          else (logLine st "Failed to create Start Menu entry", 0)
        else (st, 0)
      let shortcuts_created : Nat := n1 + n2
      if shortcuts_created > 0 then
        ⟨update_step_status st 4 "Complete" success_color, true, []⟩
      else
        ⟨update_step_status st 4 "Failed" error_color, false, []⟩

-- Decidable equality for `Except`, needed by the oracle records.
deriving instance DecidableEq for Except

/-- The external environment of one whole install run: one oracle per
external interaction, consumed in workflow order. -/
structure World where
  connectProbe : Except String Int
  download : Except String String
  installRun : SSHWorld
  verifyProbe : Except String Int
  verifyStatus : SSHWorld
  shortcuts : ShortcutsOutcome
  deriving DecidableEq

/-- How one invocation of `start_installation` ends: rejected because a
run is already in flight, rejected for missing configuration, failed at
a fatal step (with the exception message of the `raise`), or completed
successfully (with the reported web-interface URL). -/
inductive RunOutcome
  | busy
  | configRequired
  | failed (msg : String)
  | success (url : String)
  deriving DecidableEq

/-- The `except` branch of the install worker: log the error, open the
failure dialog, and (in `finally`) clear the busy flag. -/
def finishFailure (st : GuiState) (msg : String) (tr : List Event) :
    GuiState × RunOutcome × List Event :=
  let st := logLine st ("ERROR: Installation failed - " ++ msg)
  let st := notify st "Installation Failed"
  ({ st with is_installing := false }, RunOutcome.failed msg, tr)

/-- `start_installation`: the busy guard (`if self.is_installing:
return`, with no notice), the configuration check, then the worker
body: set the busy flag, reset all five step labels to Pending, and run
the five steps in order; steps 1-4 returning `False` raise and abort;
step 5 returning `False` only logs a warning; on success the completion
banner, the web-interface URL and the completion dialog are emitted; the
`finally` clause clears the busy flag. -/
def start_installation (st0 : GuiState) (w : World) :
    GuiState × RunOutcome × List Event :=
  if st0.is_installing then (st0, RunOutcome.busy, [])
  else
    let hostname := strip st0.hostname
    let username := strip st0.username
    if hostname = "" ∨ username = "" then
      (notify st0 "Configuration Required", RunOutcome.configRequired, [])
    else
      let st := { st0 with is_installing := true, steps := resetSteps }
      let st := logLine st "STARTING DREAMPI INSTALLATION"
      let r1 := connect_to_pi st w.connectProbe
      if r1.ok = false then
        finishFailure r1.st "Failed to connect to Raspberry Pi" r1.tr
      else
        let r2 := download_install_script r1.st w.download
        if r2.ok = false then
          finishFailure r2.st "Failed to download installation script"
            (r1.tr ++ r2.tr)
        else
          let r3 := install_pi_service r2.st w.installRun
          if r3.ok = false then
            finishFailure r3.st "Failed to install Pi service"
              (r1.tr ++ r2.tr ++ r3.tr)
          else
            let r4 := verify_installation r3.st w.verifyProbe w.verifyStatus
            if r4.ok = false then
              finishFailure r4.st "Installation verification failed"
                (r1.tr ++ r2.tr ++ r3.tr ++ r4.tr)
            else
              let r5 := create_windows_shortcuts r4.st w.shortcuts
              let st := r5.st
              let st :=
                if r5.ok = false then
                  logLine st "Warning: Some shortcuts may not have been created"
                else st
              let pi_url :=
                "http://" ++ hostname ++ ":" ++ toString PORTAL_PORT
              let st := logLine st "DREAMPI LINK CABLE INSTALLATION COMPLETED!"
              let st := logLine st
                ("DreamPi Link Cable Web Server is now available at: "
                  ++ pi_url)
              let st := notify st "Installation Complete"
              ({ st with is_installing := false }, RunOutcome.success pi_url,
               r1.tr ++ r2.tr ++ r3.tr ++ r4.tr ++ r5.tr)

/-- Environment of one `test_pi_connection` call: the outcome of
`socket.gethostbyname` and, if that succeeds, of the 5-second
`connect_ex` probe (`Except.error` for any other raised exception). -/
structure TestOracle where
  resolve : Except String Unit
  probe : Except String Int
  deriving DecidableEq

/-- `test_pi_connection` (the interactive "Test Connection" button):
require a non-empty hostname, resolve it, then probe the SSH port with
a 5-second socket timeout, reporting each outcome in the log and in a
message box. -/
def test_pi_connection (st : GuiState) (o : TestOracle) :
    GuiState × List Event :=
  let hostname := strip st.hostname
  let port := st.port
  if hostname = "" then
    (logLine st "ERROR: Please enter Pi hostname/IP address", [])
  else
    let st := logLine st
      ("Testing connection to " ++ hostname ++ ":" ++ toString port ++ "...")
    match o.resolve with
    | .error _ =>
        let st := logLine st
          ("ERROR: Cannot resolve hostname \x27" ++ hostname ++ "\x27")
        (notify st "Connection Test", [Event.resolveCall hostname])
    | .ok _ =>
        let st := logLine st
          ("SUCCESS: Hostname \x27" ++ hostname ++ "\x27 resolved")
        let tr := [Event.resolveCall hostname,
                   Event.probeCall hostname port 5]
        match o.probe with
        | .ok r =>
            if r = 0 then
              let st := logLine st
                ("SUCCESS: SSH port " ++ toString port ++ " is accessible")
              (notify st "Connection Test", tr)
            else
              let st := logLine st
                ("ERROR: SSH port " ++ toString port ++ " not accessible")
              (notify st "Connection Test", tr)
        | .error e =>
            let st := logLine st ("ERROR: Connection test failed - " ++ e)
            (notify st "Connection Test", tr)

/-- The settings dictionary as read from the settings file: each key is
optional (`dict.get` with a default in the source). -/
structure SavedSettings where
  hostname : Option String
  username : Option String
  password : Option String
  port : Option Nat
  deriving DecidableEq

/-- Outcome of the settings-file access in `load_settings`: the file
does not exist, opening/parsing it raises, or it yields a settings
dictionary. -/
inductive SettingsLoad
  | absent
  | loadError (msg : String)
  | loaded (s : SavedSettings)
  deriving DecidableEq

/-- `load_settings`: if the settings file exists and parses, set each
Tk variable from the corresponding key, falling back to the built-in
default for a missing key; on any failure (`except: pass`) leave the
state untouched, with no log line and no dialog. -/
def load_settings (st : GuiState) (w : SettingsLoad) : GuiState :=
  match w with
  | .absent => st
  | .loadError _ => st
  | .loaded s =>
      { st with
        hostname := s.hostname.getD DEFAULT_HOSTNAME,
        username := s.username.getD DEFAULT_USERNAME,
        password := s.password.getD DEFAULT_PASSWORD,
        port := s.port.getD DEFAULT_PORT }

/-- The installer state as built by `__init__` before `load_settings`
runs: every Tk variable holds its built-in default, both shortcut
options are selected and no run is in flight. -/
def initState : GuiState :=
  { hostname := DEFAULT_HOSTNAME,
    username := DEFAULT_USERNAME,
    password := DEFAULT_PASSWORD,
    port := DEFAULT_PORT,
    create_desktop_shortcut := true,
    create_start_menu := true,
    is_installing := false,
    steps := resetSteps,
    install_script_content := "",
    log := [],
    notices := [] }

/-- The timeouts of the TCP connect probes in a trace, in order. -/
def probeTimeouts (tr : List Event) : List Nat :=
  tr.filterMap fun e =>
    match e with
    | .probeCall _ _ t => some t
    | _ => none

/-- The `ssh` subprocess launches in a trace, in order. -/
def sshCalls (tr : List Event) : List Event :=
  tr.filter fun e =>
    match e with
    | .sshCall _ _ => true
    | _ => false

/-- A probe oracle value that represents an unreachable host: either
`connect_ex` raised (resolution failure, timeout raised as an
exception) or it returned a non-zero error code. -/
def probeFailed (p : Except String Int) : Bool :=
  match p with
  | .ok r => r != 0
  | .error _ => true

/-- The colour with which the Verify step label ends up marked
"Complete": the success colour when the portal probe returned 0, the
warning colour otherwise. -/
def verify_color (p : Except String Int) : String :=
  match p with
  | .ok r => if r = 0 then success_color else warning_color
  | .error _ => warning_color

/-- The (text, colour) pair the Shortcuts step label ends up with:
"Complete" when at least one selected shortcut was created, "Failed"
otherwise (including when nothing was selected or the body raised). -/
def shortcuts_label (st : GuiState) (o : ShortcutsOutcome) : String × String :=
  match o with
  | .raised _ => ("Failed", error_color)
  | .normal d s =>
      if st.create_desktop_shortcut && d || st.create_start_menu && s then
        ("Complete", success_color)
      else ("Failed", error_color)

/-- An installer instance with a run already in flight. -/
def busyState : GuiState := { initState with is_installing := true }

/-- An installer instance with both shortcut options deselected. -/
def noShortcutState : GuiState :=
  { initState with create_desktop_shortcut := false,
                   create_start_menu := false }

/-- An environment in which every external interaction succeeds. -/
def sampleWorld : World :=
  { connectProbe := Except.ok 0,
    download := Except.ok "echo hi",
    installRun := { sshpass_available := true,
                    outcome := SSHOutcome.completed 0 "done" "" },
    verifyProbe := Except.ok 0,
    verifyStatus := { sshpass_available := true,
                      outcome := SSHOutcome.completed 0 "active" "" },
    shortcuts := ShortcutsOutcome.normal true true }

/-- An environment whose target host cannot be resolved. -/
def unreachableWorld : World :=
  { sampleWorld with connectProbe := Except.error "Cannot resolve hostname" }

/-- An environment in which the remote install script exits with 1. -/
def installFailWorld : World :=
  { sampleWorld with
      installRun := { sshpass_available := true,
                      outcome := SSHOutcome.completed 1 "boom" "err" } }

/-- An environment in which the Verify probe raises. -/
def verifyFailWorld : World :=
  { sampleWorld with verifyProbe := Except.error "timed out" }

/-- An environment in which the Shortcuts step body raises. -/
def shortcutsRaisedWorld : World :=
  { sampleWorld with shortcuts := ShortcutsOutcome.raised "boom" }

/-- Appending a log line leaves the step labels unchanged. -/
@[simp] lemma logLine_steps (st : GuiState) (s : String) :
    (logLine st s).steps = st.steps := rfl

/-- Showing a notice leaves the step labels unchanged. -/
@[simp] lemma notify_steps (st : GuiState) (s : String) :
    (notify st s).steps = st.steps := rfl

/-- Forwarding remote output to the log leaves the step labels
unchanged. -/
@[simp] lemma logStream_steps (st : GuiState) (tag s : String) :
    (logStream st tag s).steps = st.steps := by
  unfold logStream; split <;> rfl

/-- Updating a step label leaves the log unchanged. -/
@[simp] lemma update_step_status_log (st : GuiState) (i : Nat) (t c : String) :
    (update_step_status st i t c).log = st.log := rfl

/-- Appending a log line appends exactly that line. -/
@[simp] lemma logLine_log (st : GuiState) (s : String) :
    (logLine st s).log = st.log ++ [s] := rfl

/-- Appending a log line changes nothing but the log. -/
@[simp] lemma logLine_fields (st : GuiState) (s : String) :
    (logLine st s).hostname = st.hostname ∧
    (logLine st s).username = st.username ∧
    (logLine st s).password = st.password ∧
    (logLine st s).port = st.port ∧
    (logLine st s).create_desktop_shortcut = st.create_desktop_shortcut ∧
    (logLine st s).create_start_menu = st.create_start_menu ∧
    (logLine st s).is_installing = st.is_installing ∧
    (logLine st s).notices = st.notices :=
  ⟨rfl, rfl, rfl, rfl, rfl, rfl, rfl, rfl⟩

/-- Showing a notice changes nothing but the notices. -/
@[simp] lemma notify_fields (st : GuiState) (s : String) :
    (notify st s).hostname = st.hostname ∧
    (notify st s).username = st.username ∧
    (notify st s).password = st.password ∧
    (notify st s).port = st.port ∧
    (notify st s).create_desktop_shortcut = st.create_desktop_shortcut ∧
    (notify st s).create_start_menu = st.create_start_menu ∧
    (notify st s).is_installing = st.is_installing ∧
    (notify st s).log = st.log ∧
    (notify st s).notices = st.notices ++ [s] :=
  ⟨rfl, rfl, rfl, rfl, rfl, rfl, rfl, rfl, rfl⟩

/-- Forwarding remote output changes nothing but the log. -/
@[simp] lemma logStream_fields (st : GuiState) (tag s : String) :
    (logStream st tag s).hostname = st.hostname ∧
    (logStream st tag s).username = st.username ∧
    (logStream st tag s).password = st.password ∧
    (logStream st tag s).port = st.port ∧
    (logStream st tag s).create_desktop_shortcut = st.create_desktop_shortcut ∧
    (logStream st tag s).create_start_menu = st.create_start_menu ∧
    (logStream st tag s).is_installing = st.is_installing ∧
    (logStream st tag s).notices = st.notices := by
  unfold logStream
  split <;> exact ⟨rfl, rfl, rfl, rfl, rfl, rfl, rfl, rfl⟩

/-- Step labels of a conditionally chosen state. -/
@[simp] lemma ite_steps (c : Prop) [Decidable c] (a b : GuiState) :
    (if c then a else b).steps = if c then a.steps else b.steps := by
  split <;> rfl

/-- `verify_installation` returns `True` on every path: a failed or
raising probe is advisory only. -/
lemma verify_installation_ok (st : GuiState) (p : Except String Int)
    (sshw : SSHWorld) : (verify_installation st p sshw).ok = true := by
  cases p with
  | error e => simp [verify_installation]
  | ok r =>
      by_cases hr : r = 0 <;>
        simp [verify_installation, execute_ssh_command, hr] <;> split <;> simp

/-- `verify_installation` always leaves step 3 marked "Complete", in the
colour determined by the probe outcome. -/
lemma verify_installation_steps (st : GuiState) (p : Except String Int)
    (sshw : SSHWorld) :
    (verify_installation st p sshw).st.steps =
      st.steps.set 3 ("Complete", verify_color p) := by
  cases p with
  | error e => simp [verify_installation, verify_color, update_step_status,
      List.set_set]
  | ok r =>
      by_cases hr : r = 0 <;>
        simp [verify_installation, verify_color, execute_ssh_command, hr,
          update_step_status, List.set_set] <;> split <;> rfl

/-- `verify_installation` does not touch the shortcut option flags. -/
lemma verify_installation_flags (st : GuiState) (p : Except String Int)
    (sshw : SSHWorld) :
    (verify_installation st p sshw).st.create_desktop_shortcut =
        st.create_desktop_shortcut
    ∧ (verify_installation st p sshw).st.create_start_menu =
        st.create_start_menu := by
  cases p with
  | error e => simp [verify_installation, update_step_status, logLine]
  | ok r =>
      by_cases hr : r = 0 <;>
        simp [verify_installation, execute_ssh_command, hr,
          update_step_status, logLine] <;>
          split <;> simp

/-- `create_windows_shortcuts` sets step 4 to the label determined by
the options and outcomes, and touches no other step label. -/
lemma create_windows_shortcuts_steps (st : GuiState) (o : ShortcutsOutcome) :
    (create_windows_shortcuts st o).st.steps =
      st.steps.set 4 (shortcuts_label st o) := by
  cases o with
  | raised m => simp [create_windows_shortcuts, shortcuts_label,
      update_step_status, List.set_set]
  | normal d s =>
      cases hcd : st.create_desktop_shortcut <;>
        cases hcm : st.create_start_menu <;> cases d <;> cases s <;>
          simp [create_windows_shortcuts, shortcuts_label, hcd, hcm,
            update_step_status, List.set_set]

/-- C1: for every configuration whose hostname is unreachable (the
connect probe raises, e.g. a resolution failure, or returns a non-zero
error code within its 10-second timeout), the install run terminates at
the Connect step with that step marked Failed, `execute_ssh_command` is
never invoked (no ssh subprocess launch appears in the trace), and the
Download, Install, Verify and Shortcuts steps remain Pending. -/
theorem connect_failure_aborts_run
    (st : GuiState) (w : World)
    (hbusy : st.is_installing = false)
    (hh : ¬ strip st.hostname = "")
    (hu : ¬ strip st.username = "")
    (hfail : probeFailed w.connectProbe = true) :
    (start_installation st w).2.1 =
        RunOutcome.failed "Failed to connect to Raspberry Pi"
    ∧ stepText (start_installation st w).1 0 = "Failed"
    ∧ stepText (start_installation st w).1 1 = "Pending"
    ∧ stepText (start_installation st w).1 2 = "Pending"
    ∧ stepText (start_installation st w).1 3 = "Pending"
    ∧ stepText (start_installation st w).1 4 = "Pending"
    ∧ sshCalls (start_installation st w).2.2 = [] := by
  have hcfg : ¬(strip st.hostname = "" ∨ strip st.username = "") :=
    fun h => h.elim hh hu
  cases hp : w.connectProbe with
  | error e =>
      simp [start_installation, hbusy, hcfg, hp, connect_to_pi, finishFailure,
        stepText, update_step_status, resetSteps, sshCalls, logLine, notify]
  | ok r =>
      have hr : ¬ r = 0 := by
        intro h
        rw [hp, h] at hfail
        simp [probeFailed] at hfail
      simp [start_installation, hbusy, hcfg, hp, hr, connect_to_pi,
        finishFailure, stepText, update_step_status, resetSteps, sshCalls,
        logLine, notify]

/-- Witness for C1 at a concrete state and environment. -/
theorem connect_failure_aborts_run_witness :
    (start_installation initState unreachableWorld).2.1 =
        RunOutcome.failed "Failed to connect to Raspberry Pi"
    ∧ stepText (start_installation initState unreachableWorld).1 0 = "Failed"
    ∧ stepText (start_installation initState unreachableWorld).1 1 = "Pending"
    ∧ stepText (start_installation initState unreachableWorld).1 2 = "Pending"
    ∧ stepText (start_installation initState unreachableWorld).1 3 = "Pending"
    ∧ stepText (start_installation initState unreachableWorld).1 4 = "Pending"
    ∧ sshCalls (start_installation initState unreachableWorld).2.2 = [] :=
  connect_failure_aborts_run initState unreachableWorld rfl (by decide)
    (by decide) rfl

/-- C2: for every install run in which the remote install script exits
with a non-zero code at the Install step, the run terminates as an
overall failure with the Install step marked Failed, and the Verify and
Shortcuts steps remain Pending. -/
theorem install_exit_nonzero_fails_run
    (st : GuiState) (w : World) (body : String) (rc : Int) (out err : String)
    (hbusy : st.is_installing = false)
    (hh : ¬ strip st.hostname = "")
    (hu : ¬ strip st.username = "")
    (hconn : w.connectProbe = Except.ok 0)
    (hdl : w.download = Except.ok body)
    (hbody : ¬ strip body = "")
    (hinst : w.installRun.outcome = SSHOutcome.completed rc out err)
    (hrc : ¬ rc = 0) :
    (start_installation st w).2.1 =
        RunOutcome.failed "Failed to install Pi service"
    ∧ stepText (start_installation st w).1 2 = "Failed"
    ∧ stepText (start_installation st w).1 3 = "Pending"
    ∧ stepText (start_installation st w).1 4 = "Pending" := by
  have hcfg : ¬(strip st.hostname = "" ∨ strip st.username = "") :=
    fun h => h.elim hh hu
  simp [start_installation, hbusy, hcfg, hconn, hdl, hbody, hinst, hrc,
    connect_to_pi, download_install_script, install_pi_service,
    execute_ssh_command, finishFailure, stepText, update_step_status,
    resetSteps, logLine, notify]

/-- Witness for C2 at a concrete state and environment. -/
theorem install_exit_nonzero_fails_run_witness :
    (start_installation initState installFailWorld).2.1 =
        RunOutcome.failed "Failed to install Pi service"
    ∧ stepText (start_installation initState installFailWorld).1 2 = "Failed"
    ∧ stepText (start_installation initState installFailWorld).1 3 = "Pending"
    ∧ stepText (start_installation initState installFailWorld).1 4 =
        "Pending" :=
  install_exit_nonzero_fails_run initState installFailWorld "echo hi" 1
    "boom" "err" rfl (by decide) (by decide) rfl rfl (by decide) rfl
    (by decide)

/-- C3: `verify_installation` returns success on every outcome (port
probe failure, failed best-effort status query, or an exception), its
step is marked Complete, and an install run that reached Verify still
terminates in the overall success state: a Verify failure alone never
converts a run from success to failure. -/
theorem verify_failure_nonfatal
    (st : GuiState) (w : World) (body : String) (out err : String)
    (hbusy : st.is_installing = false)
    (hh : ¬ strip st.hostname = "")
    (hu : ¬ strip st.username = "")
    (hconn : w.connectProbe = Except.ok 0)
    (hdl : w.download = Except.ok body)
    (hbody : ¬ strip body = "")
    (hinst : w.installRun.outcome = SSHOutcome.completed 0 out err) :
    (∀ (st2 : GuiState) (p : Except String Int) (sshw : SSHWorld),
        (verify_installation st2 p sshw).ok = true)
    ∧ stepText (start_installation st w).1 3 = "Complete"
    ∧ (start_installation st w).2.1 =
        RunOutcome.success
          ("http://" ++ strip st.hostname ++ ":" ++ toString PORTAL_PORT) := by
  have hcfg : ¬(strip st.hostname = "" ∨ strip st.username = "") :=
    fun h => h.elim hh hu
  refine ⟨verify_installation_ok, ?_, ?_⟩
  · simp [start_installation, hbusy, hcfg, hconn, hdl, hbody, hinst,
      connect_to_pi, download_install_script, install_pi_service,
      execute_ssh_command, verify_installation_ok, verify_installation_steps,
      create_windows_shortcuts_steps, stepText, update_step_status,
      resetSteps, logLine, notify, finishFailure, List.set_set]
  · simp [start_installation, hbusy, hcfg, hconn, hdl, hbody, hinst,
      connect_to_pi, download_install_script, install_pi_service,
      execute_ssh_command, verify_installation_ok, finishFailure,
      logLine, notify]

/-- Witness for C3 at a concrete state and an environment whose Verify
probe raises. -/
theorem verify_failure_nonfatal_witness :
    (verify_installation initState (Except.error "timed out")
        ⟨true, SSHOutcome.completed 0 "" ""⟩).ok = true
    ∧ stepText (start_installation initState verifyFailWorld).1 3 = "Complete"
    ∧ (start_installation initState verifyFailWorld).2.1 =
        RunOutcome.success
          ("http://" ++ strip initState.hostname ++ ":"
            ++ toString PORTAL_PORT) :=
  ⟨(verify_failure_nonfatal initState verifyFailWorld "echo hi" "done" ""
      rfl (by decide) (by decide) rfl rfl (by decide) rfl).1 initState
      (Except.error "timed out") ⟨true, SSHOutcome.completed 0 "" ""⟩,
   (verify_failure_nonfatal initState verifyFailWorld "echo hi" "done" ""
      rfl (by decide) (by decide) rfl rfl (by decide) rfl).2.1,
   (verify_failure_nonfatal initState verifyFailWorld "echo hi" "done" ""
      rfl (by decide) (by decide) rfl rfl (by decide) rfl).2.2⟩

/-- C4: `execute_ssh_command` is total over its result channel: for
every command, timeout and subprocess behaviour it returns a
`(exitCode, stdout, stderr)` triple and never raises.  On timeout it
kills the process and returns exit code -1 with the timeout message in
the error position; if the transport itself cannot be started it
returns exit code -1 with the exception message through the same
channel, indistinguishable in shape from a remote command failure. -/
theorem execute_ssh_command_total
    (st : GuiState) (command : String) (timeout : Nat) (sp : Bool) :
    (∀ (rc : Int) (out err : String),
        execute_ssh_command st command timeout
            ⟨sp, SSHOutcome.completed rc out err⟩ =
          ((rc, out, err),
           [Event.sshCall (full_cmd st command timeout sp) timeout]))
    ∧ (∀ out : String,
        execute_ssh_command st command timeout ⟨sp, SSHOutcome.timedOut out⟩ =
          ((-1, out,
            "SSH command timed out after " ++ toString timeout ++ " seconds"),
           [Event.sshCall (full_cmd st command timeout sp) timeout]))
    ∧ (∀ msg : String,
        execute_ssh_command st command timeout
            ⟨sp, SSHOutcome.popenError msg⟩ =
          ((-1, "", msg),
           [Event.sshCall (full_cmd st command timeout sp) timeout])) :=
  ⟨fun _ _ _ => rfl, fun _ => rfl, fun _ => rfl⟩

/-- C5 counterexample: invoking the install entry point while the busy
flag is set is rejected, but silently — the state (including the
notices shown to the user) is completely unchanged, so no user-visible
notice is produced, contradicting the claim that the rejection comes
with one. -/
theorem busy_install_rejected_no_notice_cex :
    busyState.is_installing = true
    ∧ start_installation busyState sampleWorld =
        (busyState, RunOutcome.busy, [])
    ∧ (start_installation busyState sampleWorld).1.notices =
        busyState.notices := by
  refine ⟨rfl, ?_, ?_⟩ <;> simp [start_installation, busyState, initState]

/-- C5 (amended): invoking the install entry point while a prior run is
in flight is rejected immediately and silently: no worker is started
(the trace is empty), no notice is shown, and the state is unchanged. -/
theorem busy_install_rejected_silently (st : GuiState) (w : World)
    (h : st.is_installing = true) :
    start_installation st w = (st, RunOutcome.busy, []) := by
  simp [start_installation, h]

/-- Witness for the amended C5 at a concrete busy state. -/
theorem busy_install_rejected_silently_witness :
    start_installation busyState sampleWorld =
      (busyState, RunOutcome.busy, []) :=
  busy_install_rejected_silently busyState sampleWorld rfl

/-- C6: for every install run that reaches the Shortcuts step, the run
terminates in the overall success state with reported URL exactly
`http://<hostname>:1999`, for any shortcut outcome; and when the
shortcut step raises, the failure is logged as a warning line only. -/
theorem shortcuts_failure_nonfatal_success_url
    (st : GuiState) (w : World) (body out err msg : String)
    (hbusy : st.is_installing = false)
    (hh : ¬ strip st.hostname = "")
    (hu : ¬ strip st.username = "")
    (hconn : w.connectProbe = Except.ok 0)
    (hdl : w.download = Except.ok body)
    (hbody : ¬ strip body = "")
    (hinst : w.installRun.outcome = SSHOutcome.completed 0 out err) :
    (start_installation st w).2.1 =
        RunOutcome.success
          ("http://" ++ strip st.hostname ++ ":" ++ toString PORTAL_PORT)
    ∧ (w.shortcuts = ShortcutsOutcome.raised msg →
        "Warning: Some shortcuts may not have been created"
          ∈ (start_installation st w).1.log) := by
  have hcfg : ¬(strip st.hostname = "" ∨ strip st.username = "") :=
    fun h => h.elim hh hu
  constructor
  · simp [start_installation, hbusy, hcfg, hconn, hdl, hbody, hinst,
      connect_to_pi, download_install_script, install_pi_service,
      execute_ssh_command, verify_installation_ok, finishFailure,
      logLine, notify]
  · intro hsc
    simp [start_installation, hbusy, hcfg, hconn, hdl, hbody, hinst, hsc,
      connect_to_pi, download_install_script, install_pi_service,
      execute_ssh_command, verify_installation_ok, create_windows_shortcuts,
      finishFailure, logLine, notify, update_step_status]

/-- Witness for C6 at a concrete state and an environment whose
Shortcuts step raises. -/
theorem shortcuts_failure_nonfatal_success_url_witness :
    (start_installation initState shortcutsRaisedWorld).2.1 =
        RunOutcome.success
          ("http://" ++ strip initState.hostname ++ ":"
            ++ toString PORTAL_PORT)
    ∧ (shortcutsRaisedWorld.shortcuts = ShortcutsOutcome.raised "boom" →
        "Warning: Some shortcuts may not have been created"
          ∈ (start_installation initState shortcutsRaisedWorld).1.log) :=
  shortcuts_failure_nonfatal_success_url initState shortcutsRaisedWorld
    "echo hi" "done" "" "boom" rfl (by decide) (by decide) rfl rfl
    (by decide) rfl

/-- C7: each connectivity probe is a single `connect_ex` attempt with
the caller's timeout, and the three callers use exactly 5 seconds
(interactive connection test), 10 seconds (pre-install Connect step)
and 15 seconds (post-install Verify probe). -/
theorem probes_single_attempt_fixed_timeouts :
    (∀ (st : GuiState) (o : TestOracle), ¬ strip st.hostname = "" →
        o.resolve = Except.ok () →
        probeTimeouts (test_pi_connection st o).2 = [5])
    ∧ (∀ (st : GuiState) (p : Except String Int),
        probeTimeouts (connect_to_pi st p).tr = [10])
    ∧ (∀ (st : GuiState) (p : Except String Int) (sshw : SSHWorld),
        probeTimeouts (verify_installation st p sshw).tr = [15]) := by
  refine ⟨?_, ?_, ?_⟩
  · intro st o hh hr
    cases hp : o.probe with
    | error e => simp [test_pi_connection, hh, hr, hp, probeTimeouts]
    | ok r =>
        by_cases h0 : r = 0 <;>
          simp [test_pi_connection, hh, hr, hp, h0, probeTimeouts]
  · intro st p
    cases p with
    | error e => simp [connect_to_pi, probeTimeouts]
    | ok r =>
        by_cases h0 : r = 0 <;> simp [connect_to_pi, h0, probeTimeouts]
  · intro st p sshw
    cases p with
    | error e => simp [verify_installation, probeTimeouts]
    | ok r =>
        by_cases h0 : r = 0 <;>
          simp [verify_installation, execute_ssh_command, h0,
            probeTimeouts] <;> split <;> simp [probeTimeouts]

/-- Witness for C7 at concrete states and oracles. -/
theorem probes_single_attempt_fixed_timeouts_witness :
    probeTimeouts
        (test_pi_connection initState ⟨Except.ok (), Except.ok 0⟩).2 = [5]
    ∧ probeTimeouts (connect_to_pi initState (Except.ok 0)).tr = [10]
    ∧ probeTimeouts
        (verify_installation initState (Except.ok 0)
          ⟨true, SSHOutcome.completed 0 "" ""⟩).tr = [15] :=
  ⟨probes_single_attempt_fixed_timeouts.1 initState
      ⟨Except.ok (), Except.ok 0⟩ (by decide) rfl,
   probes_single_attempt_fixed_timeouts.2.1 initState (Except.ok 0),
   probes_single_attempt_fixed_timeouts.2.2 initState (Except.ok 0)
      ⟨true, SSHOutcome.completed 0 "" ""⟩⟩

/-- C8: every remote command invocation is constructed with host-key
verification disabled (`StrictHostKeyChecking=no`, known-hosts file
`/dev/null`) and password authentication forced while public-key
authentication is rejected, regardless of the command or timeout (and
of whether `sshpass` is available): each `-o` option pair is an infix
of the launched argument vector. -/
theorem ssh_invocations_fixed_auth_options
    (st : GuiState) (command : String) (timeout : Nat) (w : SSHWorld) :
    (execute_ssh_command st command timeout w).2 =
      [Event.sshCall (full_cmd st command timeout w.sshpass_available)
        timeout]
    ∧ ssh_cmd st command timeout =
      ["ssh",
       "-o", "StrictHostKeyChecking=no",
       "-o", "UserKnownHostsFile=/dev/null",
       "-o", "PreferredAuthentications=password",
       "-o", "PubkeyAuthentication=no",
       "-o", "ConnectTimeout=" ++ toString (min timeout 30),
       "-p", toString st.port,
       strip st.username ++ "@" ++ strip st.hostname,
       command]
    ∧ ["-o", "StrictHostKeyChecking=no"] <:+:
        full_cmd st command timeout w.sshpass_available
    ∧ ["-o", "UserKnownHostsFile=/dev/null"] <:+:
        full_cmd st command timeout w.sshpass_available
    ∧ ["-o", "PreferredAuthentications=password"] <:+:
        full_cmd st command timeout w.sshpass_available
    ∧ ["-o", "PubkeyAuthentication=no"] <:+:
        full_cmd st command timeout w.sshpass_available := by
  refine ⟨rfl, rfl, ?_, ?_, ?_, ?_⟩ <;>
    cases hsp : w.sshpass_available <;>
      simp only [full_cmd, ssh_cmd, if_true, if_false, Bool.false_eq_true,
        ite_false, ite_true]
  · exact ⟨["ssh"],
      ["-o", "UserKnownHostsFile=/dev/null",
       "-o", "PreferredAuthentications=password",
       "-o", "PubkeyAuthentication=no",
       "-o", "ConnectTimeout=" ++ toString (min timeout 30),
       "-p", toString st.port,
       strip st.username ++ "@" ++ strip st.hostname, command], rfl⟩
  · exact ⟨["sshpass", "-p", st.password, "ssh"],
      ["-o", "UserKnownHostsFile=/dev/null",
       "-o", "PreferredAuthentications=password",
       "-o", "PubkeyAuthentication=no",
       "-o", "ConnectTimeout=" ++ toString (min timeout 30),
       "-p", toString st.port,
       strip st.username ++ "@" ++ strip st.hostname, command], rfl⟩
  · exact ⟨["ssh", "-o", "StrictHostKeyChecking=no"],
      ["-o", "PreferredAuthentications=password",
       "-o", "PubkeyAuthentication=no",
       "-o", "ConnectTimeout=" ++ toString (min timeout 30),
       "-p", toString st.port,
       strip st.username ++ "@" ++ strip st.hostname, command], rfl⟩
  · exact ⟨["sshpass", "-p", st.password, "ssh", "-o",
       "StrictHostKeyChecking=no"],
      ["-o", "PreferredAuthentications=password",
       "-o", "PubkeyAuthentication=no",
       "-o", "ConnectTimeout=" ++ toString (min timeout 30),
       "-p", toString st.port,
       strip st.username ++ "@" ++ strip st.hostname, command], rfl⟩
  · exact ⟨["ssh", "-o", "StrictHostKeyChecking=no",
       "-o", "UserKnownHostsFile=/dev/null"],
      ["-o", "PubkeyAuthentication=no",
       "-o", "ConnectTimeout=" ++ toString (min timeout 30),
       "-p", toString st.port,
       strip st.username ++ "@" ++ strip st.hostname, command], rfl⟩
  · exact ⟨["sshpass", "-p", st.password, "ssh", "-o",
       "StrictHostKeyChecking=no",
       "-o", "UserKnownHostsFile=/dev/null"],
      ["-o", "PubkeyAuthentication=no",
       "-o", "ConnectTimeout=" ++ toString (min timeout 30),
       "-p", toString st.port,
       strip st.username ++ "@" ++ strip st.hostname, command], rfl⟩
  · exact ⟨["ssh", "-o", "StrictHostKeyChecking=no",
       "-o", "UserKnownHostsFile=/dev/null",
       "-o", "PreferredAuthentications=password"],
      ["-o", "ConnectTimeout=" ++ toString (min timeout 30),
       "-p", toString st.port,
       strip st.username ++ "@" ++ strip st.hostname, command], rfl⟩
  · exact ⟨["sshpass", "-p", st.password, "ssh", "-o",
       "StrictHostKeyChecking=no",
       "-o", "UserKnownHostsFile=/dev/null",
       "-o", "PreferredAuthentications=password"],
      ["-o", "ConnectTimeout=" ++ toString (min timeout 30),
       "-p", toString st.port,
       strip st.username ++ "@" ++ strip st.hostname, command], rfl⟩

/-- C9: every failed settings load (file absent, or opening/parsing
raised) leaves the installer state completely unchanged — silently, no
log line and no dialog — so the built-in defaults hostname
"dreampi.local", username "pi", password "raspberry" and port 22 set by
the constructor remain in force; and for a settings file that loads,
each missing key falls back to the built-in default for that key. -/
theorem load_settings_silent_fallback_defaults :
    (∀ (st : GuiState) (msg : String),
        load_settings st SettingsLoad.absent = st
        ∧ load_settings st (SettingsLoad.loadError msg) = st)
    ∧ initState.hostname = "dreampi.local"
    ∧ initState.username = "pi"
    ∧ initState.password = "raspberry"
    ∧ initState.port = 22
    ∧ (∀ (st : GuiState) (s : SavedSettings),
        (load_settings st (SettingsLoad.loaded s)).hostname =
            s.hostname.getD DEFAULT_HOSTNAME
        ∧ (load_settings st (SettingsLoad.loaded s)).username =
            s.username.getD DEFAULT_USERNAME
        ∧ (load_settings st (SettingsLoad.loaded s)).password =
            s.password.getD DEFAULT_PASSWORD
        ∧ (load_settings st (SettingsLoad.loaded s)).port =
            s.port.getD DEFAULT_PORT)
    ∧ (∀ st : GuiState,
        load_settings st (SettingsLoad.loaded ⟨none, none, none, none⟩) =
          { st with hostname := DEFAULT_HOSTNAME,
                    username := DEFAULT_USERNAME,
                    password := DEFAULT_PASSWORD,
                    port := DEFAULT_PORT }) :=
  ⟨fun _ _ => ⟨rfl, rfl⟩, rfl, rfl, rfl, rfl,
   fun _ _ => ⟨rfl, rfl, rfl, rfl⟩, fun _ => rfl⟩

/-- C10: when both shortcut options are deselected,
`create_windows_shortcuts` creates nothing, returns failure and marks
the Shortcuts step Failed — yet an otherwise successful run still
terminates in the overall success state. -/
theorem no_shortcut_options_failed_step_successful_run
    (st : GuiState) (w : World) (body out err : String) (d s : Bool)
    (hcd : st.create_desktop_shortcut = false)
    (hcm : st.create_start_menu = false)
    (hbusy : st.is_installing = false)
    (hh : ¬ strip st.hostname = "")
    (hu : ¬ strip st.username = "")
    (hconn : w.connectProbe = Except.ok 0)
    (hdl : w.download = Except.ok body)
    (hbody : ¬ strip body = "")
    (hinst : w.installRun.outcome = SSHOutcome.completed 0 out err)
    (hsc : w.shortcuts = ShortcutsOutcome.normal d s) :
    (create_windows_shortcuts st (ShortcutsOutcome.normal d s)).ok = false
    ∧ (create_windows_shortcuts st (ShortcutsOutcome.normal d s)).st.steps =
        st.steps.set 4 ("Failed", error_color)
    ∧ stepText (start_installation st w).1 4 = "Failed"
    ∧ (start_installation st w).2.1 =
        RunOutcome.success
          ("http://" ++ strip st.hostname ++ ":" ++ toString PORTAL_PORT) := by
  have hcfg : ¬(strip st.hostname = "" ∨ strip st.username = "") :=
    fun h => h.elim hh hu
  refine ⟨?_, ?_, ?_, ?_⟩
  · simp [create_windows_shortcuts, hcd, hcm, update_step_status, logLine]
  · simp [create_windows_shortcuts_steps, shortcuts_label, hcd, hcm]
  · simp [start_installation, hbusy, hcfg, hconn, hdl, hbody, hinst, hsc,
      connect_to_pi, download_install_script, install_pi_service,
      execute_ssh_command, verify_installation_ok, verify_installation_steps,
      verify_installation_flags, create_windows_shortcuts_steps,
      shortcuts_label, hcd, hcm, stepText, update_step_status, resetSteps,
      logLine, notify, finishFailure, List.set_set]
  · simp [start_installation, hbusy, hcfg, hconn, hdl, hbody, hinst,
      connect_to_pi, download_install_script, install_pi_service,
      execute_ssh_command, verify_installation_ok, finishFailure,
      logLine, notify]

/-- Witness for C10 at a concrete state with both options deselected. -/
theorem no_shortcut_options_failed_step_successful_run_witness :
    (create_windows_shortcuts noShortcutState
        (ShortcutsOutcome.normal true true)).ok = false
    ∧ (create_windows_shortcuts noShortcutState
        (ShortcutsOutcome.normal true true)).st.steps =
        noShortcutState.steps.set 4 ("Failed", error_color)
    ∧ stepText (start_installation noShortcutState sampleWorld).1 4 = "Failed"
    ∧ (start_installation noShortcutState sampleWorld).2.1 =
        RunOutcome.success
          ("http://" ++ strip noShortcutState.hostname ++ ":"
            ++ toString PORTAL_PORT) :=
  no_shortcut_options_failed_step_successful_run noShortcutState sampleWorld
    "echo hi" "done" "" true true rfl rfl rfl (by decide) (by decide) rfl rfl
    (by decide) rfl rfl
